import Mathlib

/-!
Shallow embedding of the fingering auto-placement code of
src/src/engraving/libmscore/fingering.cpp (MuseScore engraving library).

Real-valued quantities (C++ qreal) are modelled as rationals, which keeps
every arithmetic step of the source exact and decidable.  Code that the
excerpt only calls but does not contain (TextBase::layout, the skyline
minDistance queries, EngravingItem::rebaseOffset and rebaseMinDistance)
is represented by oracle fields of the context record holding the values
those calls return; the control flow and arithmetic of fingering.cpp
itself is translated literally.
-/

set_option linter.unusedVariables false

/-- Vertical placement side of a fingering (PlacementV, values ABOVE / BELOW). -/
inductive PlacementV where
  | above
  | below
deriving DecidableEq

/-- The text-style kinds distinguished by fingering.cpp (TextStyleType).
    All styles other than the four named ones behave like the default
    branch of layoutType, represented here by otherStyle. -/
inductive TextStyleType where
  | fingering
  | rhGuitarFingering
  | lhGuitarFingering
  | stringNumber
  | otherStyle
deriving DecidableEq

/-- Drag state of the element offset (OffsetChange).  setOffsetChanged(false)
    at the end of layout resets the flag to NONE; values other than NONE mean
    the user moved the element since the last commit. -/
inductive OffsetChange where
  | none
  | relativeOffset
  | absoluteOffset
deriving DecidableEq

/-- The two results of Fingering::layoutType (ElementType::CHORD / NOTE). -/
inductive ElementType where
  | chord
  | note
deriving DecidableEq

/-- A 2D point (mu::PointF). -/
structure Point where
  x : ℚ
  y : ℚ
deriving DecidableEq

instance : Add Point := ⟨fun p q => Point.mk (p.x + q.x) (p.y + q.y)⟩

/-- An axis-aligned rectangle (mu::RectF): left edge, top edge, width, height. -/
structure RectF where
  x : ℚ
  y : ℚ
  w : ℚ
  h : ℚ
deriving DecidableEq

/-- RectF::top. -/
def RectF.top (r : RectF) : ℚ := r.y

/-- RectF::bottom. -/
def RectF.bottom (r : RectF) : ℚ := r.y + r.h

/-- RectF::translated. -/
def RectF.translated (r : RectF) (p : Point) : RectF := RectF.mk (r.x + p.x) (r.y + p.y) r.w r.h

/-- The default-constructed RectF() used by the tab-staff early return. -/
def RectF.empty : RectF := RectF.mk 0 0 0 0

/-- Qt qMin on rationals. -/
def qMin (a b : ℚ) : ℚ := if a < b then a else b

/-- Qt qMax on rationals. -/
def qMax (a b : ℚ) : ℚ := if a < b then b else a

/-- Modelled from the spec: the Staff Skyline accumulates the bounding boxes of
    already placed elements (skyline.h / skyline.cpp are not part of the
    excerpt).  The model keeps the committed rectangles as a list. -/
abbrev Skyline := List RectF

/-- Modelled from the spec: committing one rectangle into the Staff Skyline
    accumulates it with the previously committed content. -/
def Skyline.add (r : RectF) (s : Skyline) : Skyline := r :: s

/-- The read-only context a Fingering sees during layout: flags and geometry
    pulled from the note / chord / segment / measure / staff / part
    collaborators, the style state, and the results of the external calls
    (skyline distance queries, rebaseOffset, rebaseMinDistance, base text
    layout).  None of these is written by Fingering::layout. -/
structure FingCtx where
  /-- explicitParent() is non-null (line 107). -/
  explicitParent : Bool
  /-- st && st->isTabStaff(tick) && !st->staffType(tick)->showTabFingering() (line 110). -/
  tabSuppressed : Bool
  /-- note() is non-null (lines 88, 119). -/
  hasNote : Bool
  /-- textStyleType() of this element. -/
  textStyleType : TextStyleType
  /-- placement(); placeAbove() means placement = above (line 137). -/
  placement : PlacementV
  /-- isStyled(Pid::MIN_DISTANCE) (lines 162, 198). -/
  styledMinDistance : Bool
  /-- minDistance().val(), in staff spaces (line 142). -/
  minDistanceVal : ℚ
  /-- spatium() (line 141). -/
  spatium : ℚ
  /-- the user offset of the element; pos() = ipos() + offset. -/
  offset : Point
  /-- bounding box produced by TextBase::layout() (line 116), external code. -/
  baseBBox : RectF
  /-- position produced by TextBase::layout() (line 116), external code;
      its y part is immediately overwritten by rypos() = 0.0 (line 117). -/
  basePos : Point
  /-- n->bboxRightPos() (line 125). -/
  noteBBoxRightPos : ℚ
  /-- n->mirror() (line 146). -/
  noteMirror : Bool
  /-- n->ipos().x() (line 147). -/
  noteIposX : ℚ
  /-- n->pos(), so n->x() and n->y() (lines 157, 174, 193, 210, 226, 229). -/
  notePos : Point
  /-- n->shape().left() (line 225). -/
  noteShapeLeft : ℚ
  /-- chord->measure()->hasVoices(...) at the chord tick (lines 96, 122). -/
  voices : Bool
  /-- chord->up(): stem direction points up (lines 97, 167, 203). -/
  chordUp : Bool
  /-- chord->stem() is non-null (lines 152, 167, 188, 203). -/
  chordHasStem : Bool
  /-- chord->beam() is non-null (lines 123, 167, 203). -/
  chordHasBeam : Bool
  /-- chord->notes().size() (line 123). -/
  chordNumNotes : ℕ
  /-- chord->pos() (lines 157, 193). -/
  chordPos : Point
  /-- s->pos() for the segment (lines 157, 193). -/
  segPos : Point
  /-- m->pos() for the measure (lines 157, 193). -/
  measurePos : Point
  /-- stem->y() (lines 168, 204). -/
  stemY : ℚ
  /-- stem->bbox().top() (line 168). -/
  stemBBoxTop : ℚ
  /-- stem->bbox().bottom() (line 204). -/
  stemBBoxBottom : ℚ
  /-- chord->upNote()->y() (line 171). -/
  upNoteY : ℚ
  /-- chord->upNote()->bbox().top() (line 171). -/
  upNoteBBoxTop : ℚ
  /-- chord->downNote()->y() (line 207). -/
  downNoteY : ℚ
  /-- chord->downNote()->bbox().bottom() (line 207). -/
  downNoteBBoxBottom : ℚ
  /-- staff()->height() (lines 181, 217). -/
  staffHeight : ℚ
  /-- vStaff->height() where vStaff = chord->staff() (line 207). -/
  vStaffHeight : ℚ
  /-- part->nstaves() (line 95). -/
  nstaves : ℕ
  /-- staff->rstaff(): index of the staff inside its part (line 97). -/
  rstaff : ℕ
  /-- result of sk.minDistance(ss->skyline().north()) (line 160), external code. -/
  skylineNorthDist : ℚ
  /-- result of ss->skyline().south().minDistance(sk) (line 196), external code. -/
  skylineSouthDist : ℚ
  /-- return value of rebaseOffset() (line 130), external code. -/
  rebaseOffsetResult : ℚ
  /-- the yd produced by rebaseMinDistance(md, yd, sp, rebase, above, inStaff)
      (lines 182, 218), external code, as a function of its six arguments. -/
  rebaseMinDistanceYd : ℚ → ℚ → ℚ → ℚ → Bool → Bool → ℚ

/-- The mutable state of one Fingering element around a layout call, plus the
    staff skyline it is laid out against.  layout never writes the context. -/
structure Fingering where
  ctx : FingCtx
  /-- ipos(): the element position _pos, written through rxpos() / rypos(). -/
  pos : Point
  /-- bbox() of the element. -/
  bbox : RectF
  /-- offsetChanged() flag. -/
  offsetChanged : OffsetChange
  /-- autoplace() flag. -/
  autoplace : Bool
  /-- the Staff Skyline of the system staff the element belongs to. -/
  skyline : Skyline

/-- Fingering::layoutType (lines 70-80): chord context for generic fingering,
    right-hand guitar fingering and string number, note context otherwise. -/
def layoutType (t : TextStyleType) : ElementType :=
  match t with
  | TextStyleType.fingering => ElementType.chord
  | TextStyleType.rhGuitarFingering => ElementType.chord
  | TextStyleType.stringNumber => ElementType.chord
  | _ => ElementType.note

/-- Fingering::calculatePlacement (lines 86-99): Above when there is no note;
    otherwise below = voices ? !chord->up() : (nstaves > 1) && (rstaff == nstaves - 1). -/
def calculatePlacement (c : FingCtx) : PlacementV :=
  if !c.hasNote then
    PlacementV.above
  else
    if (if c.voices then !c.chordUp
        else decide (1 < c.nstaves) && decide (c.rstaff = c.nstaves - 1)) then
      PlacementV.below
    else
      PlacementV.above

/-- The tab-staff suppression test of lines 107-113: explicitParent() and the
    staff is a tab staff that hides fingering. -/
def earlyReturn (c : FingCtx) : Bool := c.explicitParent && c.tabSuppressed

/-- Line 123: tight = voices && chord->notes().size() == 1 && !chord->beam()
    && textStyleType() != TextStyleType::STRING_NUMBER. -/
def tightMode (c : FingCtx) : Bool :=
  c.voices && decide (c.chordNumNotes = 1) && !c.chordHasBeam
    && !(decide (c.textStyleType = TextStyleType.stringNumber))

/-- The x position after lines 146-149: starting from the TextBase::layout x,
    subtract n->ipos().x() when the head is mirrored, then add headWidth * .5. -/
def chordBaseX (c : FingCtx) : ℚ :=
  c.basePos.x - (if c.noteMirror then c.noteIposX else 0) + c.noteBBoxRightPos * 0.5

/-- md = minDistance().val() * sp (line 142). -/
def mdUnits (c : FingCtx) : ℚ := c.minDistanceVal * c.spatium

/-- Lines 157 and 193: r = bbox().translated(m->pos() + s->pos() + chord->pos()
    + n->pos() + pos()), where at that point ipos() = (chordBaseX, 0), so
    pos() = (chordBaseX, 0) + offset. -/
def fingRect (c : FingCtx) : RectF :=
  c.baseBBox.translated
    (c.measurePos + c.segPos + c.chordPos + c.notePos + (Point.mk (chordBaseX c) 0 + c.offset))

/-- Lines 128-131: rebase = rebaseOffset() when offsetChanged() != NONE and not
    tight, otherwise the initial 0.0. -/
def rebaseAmount (c : FingCtx) (oc : OffsetChange) : ℚ :=
  if oc ≠ OffsetChange.none ∧ tightMode c = false then c.rebaseOffsetResult else 0

/-- Lines 181 and 217 (textually identical in both branches):
    inStaff = above ? r.bottom() + rebase > 0.0 : r.top() + rebase < staff()->height(). -/
def inStaffCheck (c : FingCtx) (oc : OffsetChange) (above : Bool) : Bool :=
  if above then decide (0 < (fingRect c).bottom + rebaseAmount c oc)
  else decide ((fingRect c).top + rebaseAmount c oc < c.staffHeight)

/-- Lines 160-164: the skyline-driven push for the above branch.  yd starts at
    0 and becomes -(d + height() * .25) when d > 0.0 and MIN_DISTANCE is styled. -/
def aboveSkylineYd (c : FingCtx) : ℚ :=
  if 0 < c.skylineNorthDist ∧ c.styledMinDistance = true then
    -(c.skylineNorthDist + c.baseBBox.h * 0.25)
  else 0

/-- Lines 166-173: top = (stem-and-beam top when chord->up() && chord->beam()
    && stem, else qMin(0.0, upNote extent)) - md. -/
def aboveTop (c : FingCtx) : ℚ :=
  (if c.chordUp && c.chordHasBeam && c.chordHasStem then c.stemY + c.stemBBoxTop
   else qMin 0 (c.upNoteY + c.upNoteBBoxTop)) - mdUnits c

/-- Lines 160-177: yd after the skyline push and the extra-space clamp of the
    above branch.  diff = (bbox().bottom() + ipos().y() + yd + n->y()) - top,
    where ipos().y() is 0 at that point (rypos() was zeroed at line 117). -/
def aboveYd (c : FingCtx) : ℚ :=
  let yd := aboveSkylineYd c
  let diff := (c.baseBBox.bottom + yd + c.notePos.y) - aboveTop c
  if 0 < diff then yd - diff else yd

/-- Lines 178-184: when offsetChanged() != NONE the yd of the above branch is
    further adjusted by rebaseMinDistance(md, yd, sp, rebase, above, inStaff)
    with above = true there. -/
def aboveFinalYd (c : FingCtx) (oc : OffsetChange) : ℚ :=
  if oc ≠ OffsetChange.none then
    c.rebaseMinDistanceYd (mdUnits c) (aboveYd c) c.spatium (rebaseAmount c oc) true
      (inStaffCheck c oc true)
  else aboveYd c

/-- Lines 196-200: the skyline-driven push for the below branch.  yd starts at
    0 and becomes d + height() * .25 when d > 0.0 and MIN_DISTANCE is styled. -/
def belowSkylineYd (c : FingCtx) : ℚ :=
  if 0 < c.skylineSouthDist ∧ c.styledMinDistance = true then
    c.skylineSouthDist + c.baseBBox.h * 0.25
  else 0

/-- Lines 201-209: bottom = (stem-and-beam bottom when !chord->up() &&
    chord->beam() && stem, else qMax(vStaff->height(), downNote extent)) + md. -/
def belowBottom (c : FingCtx) : ℚ :=
  (if !c.chordUp && c.chordHasBeam && c.chordHasStem then c.stemY + c.stemBBoxBottom
   else qMax c.vStaffHeight (c.downNoteY + c.downNoteBBoxBottom)) + mdUnits c

/-- Lines 196-213: yd after the skyline push and the extra-space clamp of the
    below branch.  diff = bottom - (bbox().top() + ipos().y() + yd + n->y()),
    where ipos().y() is 0 at that point. -/
def belowYd (c : FingCtx) : ℚ :=
  let yd := belowSkylineYd c
  let diff := belowBottom c - (c.baseBBox.top + yd + c.notePos.y)
  if 0 < diff then yd + diff else yd

/-- Lines 214-219: when offsetChanged() != NONE the yd of the below branch is
    further adjusted by rebaseMinDistance(md, yd, sp, rebase, above, inStaff)
    with above = false there. -/
def belowFinalYd (c : FingCtx) (oc : OffsetChange) : ℚ :=
  if oc ≠ OffsetChange.none then
    c.rebaseMinDistanceYd (mdUnits c) (belowYd c) c.spatium (rebaseAmount c oc) false
      (inStaffCheck c oc false)
  else belowYd c

/-- Fingering::layout (lines 105-241), as a function of the element state.
    The branches are, in source order: the tab-staff early return (107-113,
    which sets an empty bbox and changes nothing else); the base text layout
    and rypos() = 0.0 (116-117); the autoplace-with-note block (119-235),
    inside which the chord-context paths (136-222) split on placeAbove() and
    tight, the left-hand guitar path (223-231) shifts x only, and every path
    ends with setAutoplace(true) (235); other styles are left at the base
    position (232).  Without autoplace or a note, layout keeps the base
    position; the rebaseOffset(false) fallback of lines 236-239 only touches
    the user offset, which is external code.  setOffsetChanged(false) at line
    240 resets the flag to NONE on every path that reaches it.  The staff
    skyline is only read, never written, by this function. -/
def layout (f : Fingering) : Fingering :=
  if earlyReturn f.ctx then
    { f with bbox := RectF.empty }
  else if f.autoplace && f.ctx.hasNote then
    if layoutType f.ctx.textStyleType = ElementType.chord then
      if f.ctx.placement = PlacementV.above then
        if tightMode f.ctx then
          { f with
            pos := Point.mk
              (chordBaseX f.ctx - (if f.ctx.chordHasStem then 0.8 * f.ctx.spatium else 0))
              (-(1.5 * f.ctx.spatium)),
            bbox := f.ctx.baseBBox,
            offsetChanged := OffsetChange.none,
            autoplace := true }
        else
          { f with
            pos := Point.mk (chordBaseX f.ctx) (aboveFinalYd f.ctx f.offsetChanged),
            bbox := f.ctx.baseBBox,
            offsetChanged := OffsetChange.none,
            autoplace := true }
      else
        if tightMode f.ctx then
          { f with
            pos := Point.mk
              (chordBaseX f.ctx + (if f.ctx.chordHasStem then 0.8 * f.ctx.spatium else 0))
              (1.5 * f.ctx.spatium),
            bbox := f.ctx.baseBBox,
            offsetChanged := OffsetChange.none,
            autoplace := true }
        else
          { f with
            pos := Point.mk (chordBaseX f.ctx) (belowFinalYd f.ctx f.offsetChanged),
            bbox := f.ctx.baseBBox,
            offsetChanged := OffsetChange.none,
            autoplace := true }
    else if f.ctx.textStyleType = TextStyleType.lhGuitarFingering then
      { f with
        pos := Point.mk
          (if 0 < f.ctx.noteShapeLeft - f.ctx.notePos.x then f.ctx.basePos.x - f.ctx.noteShapeLeft
           else f.ctx.basePos.x - f.ctx.notePos.x)
          0,
        bbox := f.ctx.baseBBox,
        offsetChanged := OffsetChange.none,
        autoplace := true }
    else
      { f with
        pos := Point.mk f.ctx.basePos.x 0,
        bbox := f.ctx.baseBBox,
        offsetChanged := OffsetChange.none,
        autoplace := true }
  else
    { f with
      pos := Point.mk f.ctx.basePos.x 0,
      bbox := f.ctx.baseBBox,
      offsetChanged := OffsetChange.none }

/-- A concrete context used by the witness and counterexample states: a plain
    fingering on a single-voice, single-staff chord with a stem and no beam. -/
def baseCtx : FingCtx where
  explicitParent := false
  tabSuppressed := false
  hasNote := true
  textStyleType := TextStyleType.fingering
  placement := PlacementV.above
  styledMinDistance := true
  minDistanceVal := 0
  spatium := 1
  offset := Point.mk 0 0
  baseBBox := RectF.mk 0 (-1) 1 1
  basePos := Point.mk 0 0
  noteBBoxRightPos := 0
  noteMirror := false
  noteIposX := 0
  notePos := Point.mk 0 0
  noteShapeLeft := 0
  voices := false
  chordUp := true
  chordHasStem := true
  chordHasBeam := false
  chordNumNotes := 1
  chordPos := Point.mk 0 0
  segPos := Point.mk 0 0
  measurePos := Point.mk 0 0
  stemY := 0
  stemBBoxTop := 0
  stemBBoxBottom := 0
  upNoteY := 0
  upNoteBBoxTop := 0
  downNoteY := 0
  downNoteBBoxBottom := 0
  staffHeight := 4
  vStaffHeight := 4
  nstaves := 1
  rstaff := 0
  skylineNorthDist := 0
  skylineSouthDist := 0
  rebaseOffsetResult := 0
  rebaseMinDistanceYd := fun _ yd _ _ _ _ => yd

/-- A concrete fingering state built over baseCtx, not yet laid out. -/
def baseFing : Fingering where
  ctx := baseCtx
  pos := Point.mk 0 0
  bbox := RectF.mk 0 0 0 0
  offsetChanged := OffsetChange.none
  autoplace := true
  skyline := []

/-- A multi-voice context with the stem pointing up (chordUp = true). -/
def c1Ctx : FingCtx := { baseCtx with voices := true, chordUp := true }

/-- A single-voice context on the last staff of a two-staff part. -/
def c5Ctx : FingCtx := { baseCtx with nstaves := 2, rstaff := 1 }

/-- A fingering state with no anchor note. -/
def c6Fing : Fingering := { baseFing with ctx := { baseCtx with hasNote := false } }

/-- A tight-mode state: multiple voices, one note, no beam, generic fingering
    style, stem present, placement above, spatium 1, base x position 0. -/
def c3Fing : Fingering := { baseFing with ctx := { baseCtx with voices := true } }

/-- A left-hand guitar fingering state with a note shape extending 1 unit to
    the left and the note at x position 0. -/
def c9Fing : Fingering :=
  { baseFing with ctx :=
    { baseCtx with textStyleType := TextStyleType.lhGuitarFingering, noteShapeLeft := 1 } }

/-- A non-tight above state whose north-profile query returns distance 1. -/
def c4Fing : Fingering := { baseFing with ctx := { baseCtx with skylineNorthDist := 1 } }

/-- A non-tight below state with a pending drag and a rebaseMinDistance
    oracle that adds 2 when the element is still inside the staff and
    subtracts 2 otherwise. -/
def c8Fing : Fingering :=
  { baseFing with
    offsetChanged := OffsetChange.relativeOffset,
    ctx := { baseCtx with
      placement := PlacementV.below,
      rebaseOffsetResult := 1,
      rebaseMinDistanceYd := fun _ yd _ _ _ inStaff => if inStaff then yd + 2 else yd - 2 } }

@[simp] theorem Point.add_x (p q : Point) : (p + q).x = p.x + q.x := rfl

@[simp] theorem Point.add_y (p q : Point) : (p + q).y = p.y + q.y := rfl

/-- layout never changes the context record. -/
theorem layout_ctx (f : Fingering) : (layout f).ctx = f.ctx := by
  unfold layout
  (repeat' split) <;> rfl

/-- layout never writes the staff skyline: every branch of the function keeps
    the skyline field of the state untouched. -/
theorem layout_skyline_eq (f : Fingering) : (layout f).skyline = f.skyline := by
  unfold layout
  (repeat' split) <;> rfl

/-- The offsetChanged flag after layout: kept by the tab-staff early return,
    reset to NONE by every other path (setOffsetChanged(false), line 240). -/
theorem layout_offsetChanged (f : Fingering) :
    (layout f).offsetChanged =
      if earlyReturn f.ctx = true then f.offsetChanged else OffsetChange.none := by
  unfold layout
  (repeat' split) <;> simp_all

/-- The autoplace flag after layout equals the flag before: the branch that
    sets it temporarily to false only runs when it was true and ends with
    setAutoplace(true) (lines 134, 235); all other paths never touch it. -/
theorem layout_autoplace (f : Fingering) : (layout f).autoplace = f.autoplace := by
  unfold layout
  (repeat' split) <;> simp_all [Bool.and_eq_true]

/-- On the tab-staff early return, the position is left unchanged. -/
theorem layout_pos_early (f : Fingering) (h : earlyReturn f.ctx = true) :
    (layout f).pos = f.pos := by
  unfold layout
  simp [h]

/-- The position layout computes only depends on the context, the
    offsetChanged flag, the autoplace flag, and (on the early return only)
    the previous position. -/
theorem layout_pos_congr (f g : Fingering) (hctx : g.ctx = f.ctx)
    (hoc : g.offsetChanged = f.offsetChanged) (hap : g.autoplace = f.autoplace)
    (hpos : earlyReturn f.ctx = true → g.pos = f.pos) :
    (layout g).pos = (layout f).pos := by
  unfold layout
  rw [hctx, hoc, hap]
  (repeat' split) <;> simp_all

/-- C1 counterexample: the claim says that in a multi-voice context the
    placement is Below exactly when the stem direction is up.  In this
    context the note exists, voices hold and the stem points up, yet
    calculatePlacement returns Above (the source computes
    below = !chord->up() there), so the claim is false. -/
theorem c1_counterexample :
    c1Ctx.hasNote = true ∧ c1Ctx.voices = true ∧ c1Ctx.chordUp = true ∧
    calculatePlacement c1Ctx = PlacementV.above := by
  decide

/-- C1 (amended): for every fingering whose anchor note exists and whose
    chord has multiple simultaneous voices at its tick, calculatePlacement
    returns Below exactly when the stem direction is down and Above exactly
    when the stem direction is up, independent of the number of staves in
    the part. -/
theorem c1_multivoice_placement (c : FingCtx)
    (hN : c.hasNote = true) (hV : c.voices = true) :
    (calculatePlacement c = PlacementV.below ↔ c.chordUp = false) ∧
    (calculatePlacement c = PlacementV.above ↔ c.chordUp = true) ∧
    (∀ k j : ℕ, calculatePlacement { c with nstaves := k, rstaff := j } = calculatePlacement c) := by
  cases hcu : c.chordUp <;> simp [calculatePlacement, hN, hV, hcu]

/-- C1 witness: the amended statement applied at the concrete multi-voice
    stem-up context. -/
theorem c1_witness :
    calculatePlacement c1Ctx = PlacementV.above ↔ c1Ctx.chordUp = true :=
  (c1_multivoice_placement c1Ctx (by decide) (by decide)).2.1

/-- C5: for every fingering whose anchor note exists and whose chord does not
    have multiple simultaneous voices at its tick, calculatePlacement returns
    Below if and only if the part has more than one staff and this staff is
    the last staff of the part; in every other single-voice case it returns
    Above. -/
theorem c5_singlevoice_placement (c : FingCtx)
    (hN : c.hasNote = true) (hV : c.voices = false) :
    (calculatePlacement c = PlacementV.below ↔ (1 < c.nstaves ∧ c.rstaff = c.nstaves - 1)) ∧
    (¬ (1 < c.nstaves ∧ c.rstaff = c.nstaves - 1) → calculatePlacement c = PlacementV.above) := by
  by_cases h : 1 < c.nstaves ∧ c.rstaff = c.nstaves - 1 <;>
    simp [calculatePlacement, hN, hV, h]

/-- C5 witness: on the bottom staff of a two-staff part, single voice, the
    policy places Below. -/
theorem c5_witness : calculatePlacement c5Ctx = PlacementV.below :=
  (c5_singlevoice_placement c5Ctx (by decide) (by decide)).1.mpr (by decide)

/-- C6: when the anchor note is absent, calculatePlacement returns Above and
    layout performs no collision avoidance and no skyline-based adjustment:
    outside the tab-staff early return it keeps the base text-layout position
    (x from the base layout, y zeroed) and leaves the skyline untouched. -/
theorem c6_no_note (f : Fingering) (hN : f.ctx.hasNote = false) :
    calculatePlacement f.ctx = PlacementV.above ∧
    (earlyReturn f.ctx = false →
      (layout f).pos = Point.mk f.ctx.basePos.x 0 ∧ (layout f).skyline = f.skyline) := by
  constructor
  · simp [calculatePlacement, hN]
  · intro hE
    have hA : (f.autoplace && f.ctx.hasNote) = false := by simp [hN]
    simp [layout, hE, hA]

/-- C6 witness: the no-note fallback applied at a concrete state. -/
theorem c6_witness :
    calculatePlacement c6Fing.ctx = PlacementV.above ∧
    (layout c6Fing).pos = Point.mk c6Fing.ctx.basePos.x 0 ∧
    (layout c6Fing).skyline = c6Fing.skyline :=
  ⟨(c6_no_note c6Fing (by decide)).1, (c6_no_note c6Fing (by decide)).2 (by decide)⟩

/-- C10: every layout call that does not take the tab-staff early return ends
    with the offsetChanged flag reset to NONE, the early return leaves the
    flag unchanged, and the autoplace flag holds the same value after layout
    as before it. -/
theorem c10_flags (f : Fingering) :
    (layout f).offsetChanged =
      (if earlyReturn f.ctx = true then f.offsetChanged else OffsetChange.none) ∧
    (layout f).autoplace = f.autoplace :=
  ⟨layout_offsetChanged f, layout_autoplace f⟩

/-- C2 counterexample: the claim says layout finishes by inserting the
    finalized bounding box into the Staff Skyline.  At this concrete state
    (autoplace on, note present, no early return) the skyline after layout
    equals the skyline before, and differs from what inserting the finalized
    bounding box would produce, so the claim is false. -/
theorem c2_counterexample :
    baseFing.autoplace = true ∧ baseFing.ctx.hasNote = true ∧
    earlyReturn baseFing.ctx = false ∧
    (layout baseFing).skyline = baseFing.skyline ∧
    (layout baseFing).skyline ≠ Skyline.add (layout baseFing).bbox baseFing.skyline := by
  refine ⟨rfl, rfl, rfl, layout_skyline_eq baseFing, ?_⟩
  rw [layout_skyline_eq baseFing]
  simp [Skyline.add, baseFing]

/-- C2 (amended): layout never inserts anything into the Staff Skyline; it
    only queries it.  The commit of the finalized bounding box happens
    outside Fingering::layout. -/
theorem c2_no_skyline_write (f : Fingering) : (layout f).skyline = f.skyline :=
  layout_skyline_eq f

/-- C7: with no pending user drag (offsetChanged = NONE) and unchanged
    context, running layout twice in succession yields the same final
    position as running it once. -/
theorem c7_idempotent (f : Fingering) (hOC : f.offsetChanged = OffsetChange.none) :
    (layout (layout f)).pos = (layout f).pos := by
  have hoc : (layout f).offsetChanged = f.offsetChanged := by
    rw [layout_offsetChanged f, hOC, ite_self]
  exact layout_pos_congr f (layout f) (layout_ctx f) hoc (layout_autoplace f)
    (fun h => layout_pos_early f h)

/-- C7 witness: the idempotence theorem applied at a concrete state. -/
theorem c7_witness : (layout (layout baseFing)).pos = (layout baseFing).pos :=
  c7_idempotent baseFing (by decide)

/-- C3 counterexample: the claim says the tight-mode horizontal offset is half
    a staff-space.  At this tight-mode state with a stem, spatium 1 and base
    x position 0, the laid-out x is -0.8, not -0.5: the source uses 0.8 * sp
    (lines 153, 189), so the claim is false. -/
theorem c3_counterexample :
    tightMode c3Fing.ctx = true ∧ c3Fing.ctx.chordHasStem = true ∧
    c3Fing.ctx.spatium = 1 ∧ chordBaseX c3Fing.ctx = 0 ∧
    (layout c3Fing).pos.x = -(0.8 : ℚ) ∧ (layout c3Fing).pos.x ≠ -(0.5 : ℚ) := by
  have h1 : earlyReturn c3Fing.ctx = false := by decide
  have h2 : tightMode c3Fing.ctx = true := by decide
  have hx : (layout c3Fing).pos.x = -(0.8 : ℚ) := by
    simp only [c3Fing, baseFing, baseCtx] at h1 h2 ⊢
    simp [layout, h1, h2, layoutType, chordBaseX]
  refine ⟨h2, rfl, rfl, ?_, hx, ?_⟩
  · norm_num [chordBaseX, c3Fing, baseFing, baseCtx]
  · rw [hx]; norm_num

/-- C3 (amended): with autoplace, an anchor note and chord layout type, tight
    mode holds exactly when the chord has exactly one note, no beam, multiple
    voices at the tick, and the style is not string-number; in tight mode the
    skyline query results are ignored and a fixed offset is applied: 0.8
    staff-spaces horizontally (only when a stem exists, toward the side away
    from the staff side) and 1.5 staff-spaces vertically away from the staff. -/
theorem c3_tight_mode (f : Fingering)
    (hE : earlyReturn f.ctx = false) (hA : f.autoplace = true) (hN : f.ctx.hasNote = true)
    (hT : layoutType f.ctx.textStyleType = ElementType.chord) :
    (tightMode f.ctx = true ↔
      (f.ctx.voices = true ∧ f.ctx.chordNumNotes = 1 ∧ f.ctx.chordHasBeam = false ∧
        f.ctx.textStyleType ≠ TextStyleType.stringNumber)) ∧
    (tightMode f.ctx = true →
      ((layout f).pos.x =
        (if f.ctx.placement = PlacementV.above then
          chordBaseX f.ctx - (if f.ctx.chordHasStem = true then 0.8 * f.ctx.spatium else 0)
        else
          chordBaseX f.ctx + (if f.ctx.chordHasStem = true then 0.8 * f.ctx.spatium else 0)) ∧
       (layout f).pos.y =
        (if f.ctx.placement = PlacementV.above then -(1.5 * f.ctx.spatium)
         else 1.5 * f.ctx.spatium))) := by
  constructor
  · simp [tightMode, Bool.and_eq_true, decide_eq_true_eq, Bool.not_eq_true']
    tauto
  · intro ht
    cases hp : f.ctx.placement with
    | above => simp [layout, hE, hA, hN, hT, ht, hp]
    | below =>
      have hp' : f.ctx.placement = PlacementV.above ↔ False := by rw [hp]; simp
      simp [layout, hE, hA, hN, hT, ht, hp, hp']

/-- C3 witness: the amended tight-mode statement applied at the concrete
    tight-mode state. -/
theorem c3_witness :
    (layout c3Fing).pos.x =
      (if c3Fing.ctx.placement = PlacementV.above then
        chordBaseX c3Fing.ctx -
          (if c3Fing.ctx.chordHasStem = true then 0.8 * c3Fing.ctx.spatium else 0)
      else
        chordBaseX c3Fing.ctx +
          (if c3Fing.ctx.chordHasStem = true then 0.8 * c3Fing.ctx.spatium else 0)) ∧
    (layout c3Fing).pos.y =
      (if c3Fing.ctx.placement = PlacementV.above then -(1.5 * c3Fing.ctx.spatium)
       else 1.5 * c3Fing.ctx.spatium) :=
  (c3_tight_mode c3Fing (by decide) rfl rfl rfl).2 (by decide)

/-- C9: for a left-hand guitar fingering with autoplace and an anchor note,
    layout takes the note-context path (layoutType is NOTE): the vertical
    position stays at the base value 0 (no vertical collision avoidance) and
    the horizontal position moves left of the note shape, by the shape left
    extent when that extent exceeds the note x position, otherwise by the
    note x position. -/
theorem c9_lh_guitar (f : Fingering)
    (hE : earlyReturn f.ctx = false) (hA : f.autoplace = true) (hN : f.ctx.hasNote = true)
    (hS : f.ctx.textStyleType = TextStyleType.lhGuitarFingering) :
    layoutType f.ctx.textStyleType = ElementType.note ∧
    (layout f).pos.y = 0 ∧
    (layout f).pos.x =
      (if 0 < f.ctx.noteShapeLeft - f.ctx.notePos.x then f.ctx.basePos.x - f.ctx.noteShapeLeft
       else f.ctx.basePos.x - f.ctx.notePos.x) := by
  have hT : layoutType f.ctx.textStyleType = ElementType.note := by rw [hS]; rfl
  have hC : ¬ (layoutType TextStyleType.lhGuitarFingering = ElementType.chord) := by decide
  refine ⟨hT, ?_, ?_⟩ <;> simp [layout, hE, hA, hN, hS, hC]

/-- C9 witness: the left-hand guitar path applied at a concrete state. -/
theorem c9_witness :
    layoutType c9Fing.ctx.textStyleType = ElementType.note ∧
    (layout c9Fing).pos.y = 0 ∧
    (layout c9Fing).pos.x =
      (if 0 < c9Fing.ctx.noteShapeLeft - c9Fing.ctx.notePos.x then
        c9Fing.ctx.basePos.x - c9Fing.ctx.noteShapeLeft
       else c9Fing.ctx.basePos.x - c9Fing.ctx.notePos.x) :=
  c9_lh_guitar c9Fing (by decide) rfl rfl rfl

/-- C4: in the non-tight chord path, when the minDistance query against the
    opposing skyline profile returns a strictly positive distance d and the
    MIN_DISTANCE property is styled, the element is pushed away from the
    staff by exactly d + 0.25 * height: subtracted from the vertical position
    when placing above (query against the north profile), added when placing
    below (query against the south profile).  The extra-space clamp of lines
    166-177 / 201-213 is assumed inactive (its diff is not positive) and no
    drag rebase is pending, so that this push is the whole vertical result. -/
theorem c4_skyline_push (f : Fingering)
    (hE : earlyReturn f.ctx = false) (hA : f.autoplace = true) (hN : f.ctx.hasNote = true)
    (hT : layoutType f.ctx.textStyleType = ElementType.chord)
    (hTight : tightMode f.ctx = false)
    (hOC : f.offsetChanged = OffsetChange.none)
    (hStyled : f.ctx.styledMinDistance = true) :
    (f.ctx.placement = PlacementV.above → 0 < f.ctx.skylineNorthDist →
      (f.ctx.baseBBox.bottom + aboveSkylineYd f.ctx + f.ctx.notePos.y) - aboveTop f.ctx ≤ 0 →
      (layout f).pos.y = -(f.ctx.skylineNorthDist + f.ctx.baseBBox.h * 0.25)) ∧
    (f.ctx.placement = PlacementV.below → 0 < f.ctx.skylineSouthDist →
      belowBottom f.ctx - (f.ctx.baseBBox.top + belowSkylineYd f.ctx + f.ctx.notePos.y) ≤ 0 →
      (layout f).pos.y = f.ctx.skylineSouthDist + f.ctx.baseBBox.h * 0.25) := by
  constructor
  · intro hp hd hdiff
    have h1 : (layout f).pos.y = aboveFinalYd f.ctx f.offsetChanged := by
      simp [layout, hE, hA, hN, hT, hTight, hp]
    rw [h1, aboveFinalYd]
    simp only [hOC, ne_eq, not_true_eq_false, if_false]
    rw [aboveYd]
    simp only [if_neg (not_lt.mpr hdiff)]
    rw [aboveSkylineYd, if_pos ⟨hd, hStyled⟩]
  · intro hp hd hdiff
    have hp' : f.ctx.placement = PlacementV.above ↔ False := by rw [hp]; simp
    have h1 : (layout f).pos.y = belowFinalYd f.ctx f.offsetChanged := by
      simp [layout, hE, hA, hN, hT, hTight, hp, hp']
    rw [h1, belowFinalYd]
    simp only [hOC, ne_eq, not_true_eq_false, if_false]
    rw [belowYd]
    simp only [if_neg (not_lt.mpr hdiff)]
    rw [belowSkylineYd, if_pos ⟨hd, hStyled⟩]

/-- C4 witness: the skyline push applied at a concrete above state with
    d = 1 and height 1 gives a vertical position of -(1 + 0.25). -/
theorem c4_witness : (layout c4Fing).pos.y = -(5/4 : ℚ) := by
  have h := (c4_skyline_push c4Fing (by decide) rfl rfl rfl (by decide) rfl rfl).1 rfl
    (by norm_num [c4Fing, baseFing, baseCtx])
    (by norm_num [c4Fing, baseFing, baseCtx, aboveSkylineYd, aboveTop, mdUnits, qMin,
      RectF.bottom])
  rw [h]
  norm_num [c4Fing, baseFing, baseCtx]

/-- C8: in the non-tight below branch with a pending drag, the final vertical
    position is the rebaseMinDistance result whose above flag is false and
    whose inStaff flag is the below-side expression r.top() + rebase <
    staff()->height() computed from the pre-rebase rectangle: although the
    source repeats the full conditional on the local variable above at lines
    181 and 217, above is false in the below branch, so the below-side
    expression is the one selected there. -/
theorem c8_below_instaff (f : Fingering)
    (hE : earlyReturn f.ctx = false) (hA : f.autoplace = true) (hN : f.ctx.hasNote = true)
    (hT : layoutType f.ctx.textStyleType = ElementType.chord)
    (hP : f.ctx.placement = PlacementV.below)
    (hTight : tightMode f.ctx = false)
    (hOC : f.offsetChanged ≠ OffsetChange.none) :
    (layout f).pos.y =
      f.ctx.rebaseMinDistanceYd (mdUnits f.ctx) (belowYd f.ctx) f.ctx.spatium
        (rebaseAmount f.ctx f.offsetChanged) false
        (decide ((fingRect f.ctx).top + rebaseAmount f.ctx f.offsetChanged <
          f.ctx.staffHeight)) := by
  have hP' : f.ctx.placement = PlacementV.above ↔ False := by rw [hP]; simp
  have h1 : (layout f).pos.y = belowFinalYd f.ctx f.offsetChanged := by
    simp [layout, hE, hA, hN, hT, hTight, hP, hP']
  rw [h1, belowFinalYd, if_pos hOC, inStaffCheck, if_neg (by simp)]

/-- C8 witness: at the concrete below state the selected inStaff flag is the
    below-side test (-1 + 1 < 4, true), so the oracle adds 2 to the clamped
    yd of 5 and layout lands at 7. -/
theorem c8_witness : (layout c8Fing).pos.y = 7 := by
  have h := c8_below_instaff c8Fing (by decide) rfl rfl rfl rfl (by decide) (by decide)
  have hne : ¬ (OffsetChange.relativeOffset = OffsetChange.none) := by decide
  rw [h]
  have hin : decide ((fingRect c8Fing.ctx).top + rebaseAmount c8Fing.ctx c8Fing.offsetChanged <
      c8Fing.ctx.staffHeight) = true := by
    apply decide_eq_true
    norm_num [c8Fing, baseFing, baseCtx, fingRect, chordBaseX, rebaseAmount, tightMode,
      RectF.top, RectF.translated, hne]
  rw [hin]
  norm_num [c8Fing, baseFing, baseCtx, mdUnits, belowYd, belowSkylineYd, belowBottom, qMax,
    rebaseAmount, tightMode, fingRect, chordBaseX, RectF.top, RectF.translated, hne]
